import Mathlib

/-!
Verification development for the `pulser` crate (PulseAudio command/response
bridge).  The definitions below are shallow embeddings of the Rust source:

* `src/pulser/src/pulseaudio/api/volume.rs`  — volume literals and specs
* `src/pulser/src/pulseaudio/util.rs`        — channel-volume update rule
* `src/pulser/src/pulseaudio/api/command.rs` — command/response vocabulary
* `src/pulser/src/pulseaudio/mainloop.rs`    — worker loop and subscriptions
* `src/pulser/src/simple.rs`                 — synchronous facade

Modelling conventions: Rust `u32` values are `Nat` (with explicit saturation
where a cast occurs), `f64` values are `Rat` (exact at every literal used in
the statements below; non-finite floats do not occur), Rust strings are
`String` or `List Char` (for the literal parser, which inspects characters),
and a Rust panic is the `panicked` constructor of `PanicOr`.  External
libpulse primitives are parameters, matching the specification's boundary.
-/

/-- Outcome of a Rust computation that can `panic!` / `assert!` / `todo!`:
either a normal value or a process abort carrying the panic message. -/
inductive PanicOr (α : Type) where
  | panicked (msg : String)
  | ok (a : α)
deriving DecidableEq, Repr

/-- True exactly for the aborting outcome. -/
def PanicOr.isPanicked {α : Type} : PanicOr α → Bool
  | .panicked _ => true
  | .ok _ => false

/-- Identifier of a server object: numeric index or string name
(`PAIdent` in `api/mod.rs`). -/
inductive PAIdent where
  | index (idx : Nat)
  | name (s : String)
deriving DecidableEq, Repr

/-- Volume literal (`PAVol` in `api/volume.rs`).  The `f64` payloads are
modelled as exact rationals. -/
inductive PAVol where
  | percentage (pct : Rat)
  | decibels (db : Rat)
  | linear (lin : Rat)
  | value (v : Nat)
deriving DecidableEq, Repr

/-- Volume mutation intent (`VolumeSpec` in `api/volume.rs`). -/
inductive VolumeSpec where
  | all (vol : PAVol)
  | channels (vols : List PAVol)
deriving DecidableEq, Repr

/-- External libpulse volume conversions (`VolumeDB::into` and
`VolumeLinear::into` from the opaque client library); the bridge treats them
as black boxes, so they are parameters of the embedding. -/
structure LibPulse where
  volumeFromDB : Rat → Nat
  volumeFromLinear : Rat → Nat

/-- The well-known nominal raw volume `Volume::NORMAL` (`0x10000`). -/
def volumeNormal : Nat := 0x10000

/-- Rust `expr as u32` applied to a (finite, nonnegative-or-negative) `f64`
value: truncation toward zero with saturation at the `u32` bounds. -/
def f64AsU32 (q : Rat) : Nat :=
  if q < 0 then 0 else min ⌊q⌋.toNat (2 ^ 32 - 1)

/-- Raw `u32` volume of a `PAVol` (`impl From<PAVol> for Volume` in
`api/volume.rs`): `Value` is the raw value itself, `Decibels`/`Linear` go
through the external libpulse conversions, and `Percentage` is
`Volume::NORMAL * pct / 100` cast to `u32`. -/
def PAVol.toVolume (lp : LibPulse) : PAVol → Nat
  | .value v => v
  | .decibels db => lp.volumeFromDB db
  | .linear lin => lp.volumeFromLinear lin
  | .percentage pct => f64AsU32 ((volumeNormal : Rat) * (pct / 100))

/-- A `ChannelVolumes` value, modelled as the list of its first `channels`
raw per-channel volumes (the source's `pa_cvolume` is a `channels : u8`
count plus a values array; every channel count below is at most
`CHANNELS_MAX = 32`, where the `u8` casts in the source are injective). -/
abbrev ChannelVolumes := List Nat

/-- `ChannelVolumes::set(channels, v)`: the first `channels` channels all
become `v` and the channel count becomes `channels`. -/
def channelVolumesSet (channels : Nat) (v : Nat) : ChannelVolumes :=
  List.replicate channels v

/-- `new_channel_volumes` in `util.rs`: builds a `ChannelVolumes` whose
channel count is the vector's length and whose values are the vector's
entries — in the list model, the vector itself. -/
def new_channel_volumes (volumes : List Nat) : ChannelVolumes := volumes

/-- `updated_channel_volumes` in `util.rs`.  The `All` arm clones the
current vector and sets every one of its channels to the single volume; the
`Channels` arm `assert!`s (a panic, modelled by `panicked`) that the
provided count equals the current channel count and otherwise builds the
new vector in order. -/
def updated_channel_volumes (lp : LibPulse) (current : ChannelVolumes)
    (volume_spec : VolumeSpec) : PanicOr ChannelVolumes :=
  match volume_spec with
  | .all vol => .ok (channelVolumesSet current.length (vol.toVolume lp))
  | .channels vols =>
      let volumes := vols.map (fun v => v.toVolume lp)
      if volumes.length = current.length then
        .ok (new_channel_volumes volumes)
      else
        .panicked ("Failed to set volumes. Provided channel count: "
          ++ toString volumes.length ++ ", actual count: "
          ++ toString current.length)

/-!
Volume literal parsing (`impl FromStr for PAVol` in `api/volume.rs`).
Strings are modelled as `List Char`; `String.trim`, `String.pop` and
`str::ends_with` are modelled directly on character lists.
-/

/-- Rust `char::is_whitespace`: the Unicode `White_Space` property
(U+0009..U+000D, U+0020, U+0085, U+00A0, U+1680, U+2000..U+200A, U+2028,
U+2029, U+202F, U+205F, U+3000). -/
def rustIsWhitespace (c : Char) : Bool :=
  let n := c.toNat
  (9 ≤ n && n ≤ 13) || n == 32 || n == 0x85 || n == 0xA0 || n == 0x1680 ||
    (0x2000 ≤ n && n ≤ 0x200A) || n == 0x2028 || n == 0x2029 ||
    n == 0x202F || n == 0x205F || n == 0x3000

/-- Rust `str::trim` (Unicode whitespace stripped from both ends). -/
def listTrim (s : List Char) : List Char :=
  ((s.dropWhile rustIsWhitespace).reverse.dropWhile rustIsWhitespace).reverse

/-- Rust `str::ends_with`: the reversed string starts with the reversed
pattern. -/
def listEndsWith (s sfx : List Char) : Bool :=
  s.reverse.take sfx.length == sfx.reverse

/-- Numeric value of a run of ASCII digits. -/
def digitsToNat (ds : List Char) : Nat :=
  ds.foldl (fun a c => a * 10 + (c.toNat - 48)) 0

/-- Optional leading sign; returns whether the value is negated and the
remaining characters. -/
def parseSign : List Char → Bool × List Char
  | '+' :: rest => (false, rest)
  | '-' :: rest => (true, rest)
  | s => (false, s)

/-- Exponent-digit suffix of an `f64` literal (`e`/`E` already consumed):
optional sign then one or more digits, consuming the whole remainder. -/
def parseExpDigits (v : Rat) (s : List Char) : Option Rat :=
  let (negE, s1) := parseSign s
  let ds := s1.takeWhile Char.isDigit
  let s2 := s1.dropWhile Char.isDigit
  if ds.isEmpty || !s2.isEmpty then none
  else some (if negE then v / (10 : Rat) ^ digitsToNat ds
             else v * (10 : Rat) ^ digitsToNat ds)

/-- Optional exponent part of an `f64` literal, applied to the significand
`signBit`/`mant`/`fracLen` (value `± mant / 10 ^ fracLen`). -/
def parseExpPart (neg : Bool) (mant : Nat) (fracLen : Nat)
    (s : List Char) : Option Rat :=
  let base : Rat := (mant : Rat) / (10 : Rat) ^ fracLen
  let signed := if neg then -base else base
  match s with
  | [] => some signed
  | 'e' :: rest => parseExpDigits signed rest
  | 'E' :: rest => parseExpDigits signed rest
  | _ => none

/-- Rust `str::parse::<f64>` restricted to finite decimal literals:
`[+-]? (Digits ['.' Digits?] | '.' Digits) [(e|E) [+-]? Digits]`, exact as a
rational.  (The non-finite literals `inf`/`infinity`/`nan` fall outside the
rational model and do not occur in any statement below.) -/
def parseF64 (s0 : List Char) : Option Rat :=
  let (neg, s1) := parseSign s0
  let ip := s1.takeWhile Char.isDigit
  let s2 := s1.dropWhile Char.isDigit
  match s2 with
  | '.' :: s3 =>
      let fp := s3.takeWhile Char.isDigit
      let s4 := s3.dropWhile Char.isDigit
      if ip.isEmpty && fp.isEmpty then none
      else parseExpPart neg (digitsToNat (ip ++ fp)) fp.length s4
  | _ => if ip.isEmpty then none else parseExpPart neg (digitsToNat ip) 0 s2

/-- Rust `str::parse::<u32>`: an optional leading `+`, then one or more
ASCII digits fitting in 32 bits, with the standard library's error
messages (`ParseIntError`'s `Display`).  A leading `-` is not stripped for
an unsigned target (`from_str_radix` only strips it for signed types), so
any `-` fails as a non-digit with `invalid digit found in string`. -/
def parseU32 (s : List Char) : Except String Nat :=
  match s with
  | [] => .error "cannot parse integer from empty string"
  | _ =>
    let s1 := match s with
      | '+' :: r => r
      | r => r
    if s1.isEmpty || !s1.all Char.isDigit then
      .error "invalid digit found in string"
    else
      let v := digitsToNat s1
      if v < 2 ^ 32 then .ok v
      else .error "number too large to fit in target type"

/-- The `f64` parse-failure message propagated by `?`
(`ParseFloatError`'s `Display`; it does not include the offending text). -/
def floatErrMsg : String := "invalid float literal"

/-- `impl FromStr for PAVol` (`api/volume.rs`): dispatch on the trailing
suffix — `L` (popped once) parses the rest as a linear float, `dB` (popped
twice) as decibels, `%` (popped once) as a percentage float with an integer
fallback, and no suffix as a raw `u32`; each numeric portion is trimmed.
Errors are the standard library parse errors propagated by `?`. -/
def PAVol.from_str (s : List Char) : Except String PAVol :=
  if listEndsWith s ['L'] then
    match parseF64 (listTrim s.dropLast) with
    | some q => .ok (.linear q)
    | none => .error floatErrMsg
  else if listEndsWith s ['d', 'B'] then
    match parseF64 (listTrim s.dropLast.dropLast) with
    | some q => .ok (.decibels q)
    | none => .error floatErrMsg
  else if listEndsWith s ['%'] then
    let t := listTrim s.dropLast
    match parseF64 t with
    | some q => .ok (.percentage q)
    | none =>
        match parseU32 t with
        | .ok n => .ok (.percentage (n : Rat))
        | .error e => .error e
  else
    match parseU32 (listTrim s) with
    | .ok n => .ok (.value n)
    | .error e => .error e

/-- Substring test used to state that an error message does or does not
mention a given text. -/
def containsSub (hay needle : List Char) : Bool :=
  (List.range (hay.length + 1)).any (fun i => needle.isPrefixOf (hay.drop i))

/-!
Command/response vocabulary (`api/command.rs`) and the object-info structs
(`api/mod.rs`, `api/structs.rs`).  Each info struct is modelled by the
fields the verified operations read (`index`, `name`); the remaining fields
of the Rust structs are payload data never inspected by the bridge logic
under verification.
-/

/-- Server info payload (`PAServerInfo`); only the default-device names are
read by the bridge logic. -/
structure PAServerInfo where
  default_sink_name : Option String
  default_source_name : Option String
deriving DecidableEq, Repr

/-- Card info payload (modelled fields). -/
structure PACardInfo where
  index : Nat
  name : Option String
deriving DecidableEq, Repr

/-- Client info payload (modelled fields). -/
structure PAClientInfo where
  index : Nat
  name : Option String
deriving DecidableEq, Repr

/-- Module info payload (modelled fields). -/
structure PAModuleInfo where
  index : Nat
  name : Option String
deriving DecidableEq, Repr

/-- Sample info payload (modelled fields). -/
structure PASampleInfo where
  index : Nat
  name : Option String
deriving DecidableEq, Repr

/-- Sink info payload (modelled fields). -/
structure PASinkInfo where
  index : Nat
  name : Option String
deriving DecidableEq, Repr

/-- Sink-input info payload (modelled fields). -/
structure PASinkInputInfo where
  index : Nat
  name : Option String
deriving DecidableEq, Repr

/-- Source info payload (modelled fields). -/
structure PASourceInfo where
  index : Nat
  name : Option String
deriving DecidableEq, Repr

/-- Source-output info payload (modelled fields). -/
structure PASourceOutputInfo where
  index : Nat
  name : Option String
deriving DecidableEq, Repr

/-- Channel position (`PAPosition`), modelled by its discriminant. -/
abbrev PAPosition := Nat

/-- One channel's volume reading (`VolumeReading` in `api/volume.rs`). -/
structure VolumeReading where
  channel : PAPosition
  volume : Nat
deriving DecidableEq, Repr

/-- Ordered per-channel readings (`VolumeReadings`). -/
abbrev VolumeReadings := List VolumeReading

/-- Subscription mask (`PAMask`), a bit-set over object categories,
modelled by its bit pattern. -/
abbrev PAMask := Nat

/-- Request message (`PACommand` in `api/command.rs`).  The
`Subscribe(mask, sender)` variant's event-sink capability is modelled
separately (see the subscription forwarder below), so the variant carries
the mask. -/
inductive PACommand where
  | GetServerInfo
  | GetDefaultSink
  | GetDefaultSource
  | SetDefaultSink (id : PAIdent)
  | SetDefaultSource (id : PAIdent)
  | GetClientInfo (idx : Nat)
  | KillClient (idx : Nat)
  | GetSinkInfo (id : PAIdent)
  | GetSinkMute (id : PAIdent)
  | GetSinkVolume (id : PAIdent)
  | SetSinkMute (id : PAIdent) (mute : Bool)
  | SetSinkVolume (id : PAIdent) (vol : VolumeSpec)
  | GetSourceInfo (id : PAIdent)
  | GetSourceMute (id : PAIdent)
  | GetSourceVolume (id : PAIdent)
  | SetSourceMute (id : PAIdent) (mute : Bool)
  | SetSourceVolume (id : PAIdent) (vol : VolumeSpec)
  | GetSinkInputInfo (idx : Nat)
  | GetSinkInputMute (idx : Nat)
  | GetSinkInputVolume (idx : Nat)
  | SetSinkInputMute (idx : Nat) (mute : Bool)
  | SetSinkInputVolume (idx : Nat) (vol : VolumeSpec)
  | MoveSinkInput (idx : Nat) (sink : PAIdent)
  | KillSinkInput (idx : Nat)
  | GetSourceOutputInfo (idx : Nat)
  | GetSourceOutputMute (idx : Nat)
  | GetSourceOutputVolume (idx : Nat)
  | SetSourceOutputMute (idx : Nat) (mute : Bool)
  | SetSourceOutputVolume (idx : Nat) (vol : VolumeSpec)
  | MoveSourceOutput (idx : Nat) (source : PAIdent)
  | KillSourceOutput (idx : Nat)
  | GetCardInfoList
  | GetClientInfoList
  | GetModuleInfoList
  | GetSampleInfoList
  | GetSinkInfoList
  | GetSinkInputInfoList
  | GetSourceInfoList
  | GetSourceOutputInfoList
  | Subscribe (mask : PAMask)
  | Disconnect
deriving DecidableEq, Repr

/-- Response message (`PAResponse` in `api/command.rs`). -/
inductive PAResponse where
  | OpComplete
  | OpError (msg : String)
  | CardInfoList (xs : List PACardInfo)
  | CardInfo (x : PACardInfo)
  | ClientInfoList (xs : List PAClientInfo)
  | ClientInfo (x : PAClientInfo)
  | DefaultSink (id : Option PAIdent)
  | DefaultSource (id : Option PAIdent)
  | ModuleInfoList (xs : List PAModuleInfo)
  | ModuleInfo (x : PAModuleInfo)
  | Mute (id : PAIdent) (mute : Bool)
  | SampleInfoList (xs : List PASampleInfo)
  | SampleInfo (x : PASampleInfo)
  | ServerInfo (x : PAServerInfo)
  | SinkInfoList (xs : List PASinkInfo)
  | SinkInfo (x : PASinkInfo)
  | SinkInputInfoList (xs : List PASinkInputInfo)
  | SinkInputInfo (x : PASinkInputInfo)
  | SourceInfoList (xs : List PASourceInfo)
  | SourceInfo (x : PASourceInfo)
  | SourceOutputInfoList (xs : List PASourceOutputInfo)
  | SourceOutputInfo (x : PASourceOutputInfo)
  | Volume (id : PAIdent) (vols : VolumeReadings)
  | Disconnected
deriving DecidableEq, Repr

/-- Abbreviated rendering of a response's `derive(Debug)` output, used only
inside error strings for unexpected variants; no verified property depends
on these strings. -/
def debugFmtResponse : PAResponse → String
  | .OpComplete => "OpComplete"
  | .OpError m => "OpError(" ++ m ++ ")"
  | .CardInfoList _ => "CardInfoList(..)"
  | .CardInfo _ => "CardInfo(..)"
  | .ClientInfoList _ => "ClientInfoList(..)"
  | .ClientInfo _ => "ClientInfo(..)"
  | .DefaultSink _ => "DefaultSink(..)"
  | .DefaultSource _ => "DefaultSource(..)"
  | .ModuleInfoList _ => "ModuleInfoList(..)"
  | .ModuleInfo _ => "ModuleInfo(..)"
  | .Mute _ _ => "Mute(..)"
  | .SampleInfoList _ => "SampleInfoList(..)"
  | .SampleInfo _ => "SampleInfo(..)"
  | .ServerInfo _ => "ServerInfo(..)"
  | .SinkInfoList _ => "SinkInfoList(..)"
  | .SinkInfo _ => "SinkInfo(..)"
  | .SinkInputInfoList _ => "SinkInputInfoList(..)"
  | .SinkInputInfo _ => "SinkInputInfo(..)"
  | .SourceInfoList _ => "SourceInfoList(..)"
  | .SourceInfo _ => "SourceInfo(..)"
  | .SourceOutputInfoList _ => "SourceOutputInfoList(..)"
  | .SourceOutputInfo _ => "SourceOutputInfo(..)"
  | .Volume _ _ => "Volume(..)"
  | .Disconnected => "Disconnected"

/-!
Synchronous facade (`simple.rs`).  The worker answers each command with
exactly one response, so the request/response channel pair is modelled by a
responder function `resp : PACommand → PAResponse`; each facade method
returns the list of commands it sent (in order) together with its result.
Errors (`Box<dyn Error>`) are modelled by their `Display` strings.
-/

/-- Result of a mutating operation (`OperationResult` in `simple.rs`). -/
inductive OperationResult where
  | Success
  | Failure (error : String)
deriving DecidableEq, Repr

/-- `PulseAudio::operation_result`: the next response must be `OpComplete`
or `OpError`; anything else is an "Unexpected response" error. -/
def operation_result (r : PAResponse) : Except String OperationResult :=
  match r with
  | .OpComplete => .ok .Success
  | .OpError e => .ok (.Failure e)
  | ev => .error ("Unexpected response received " ++ debugFmtResponse ev)

/-- Size measure used for the facade's name-to-index recursion (the `Name`
arm recurses exactly once, with an `Index` identifier). -/
def identSize : PAIdent → Nat
  | .index _ => 0
  | .name _ => 1

namespace PulseAudio

/-- `PulseAudio::get_sink_input_info_list`: sends `GetSinkInputInfoList`
and expects `SinkInputInfoList` (the `assume_variant!` macro maps `OpError`
to its message and any other variant to an "Expected .." error). -/
def get_sink_input_info_list (resp : PACommand → PAResponse) :
    List PACommand × Except String (List PASinkInputInfo) :=
  ([PACommand.GetSinkInputInfoList],
    match resp PACommand.GetSinkInputInfoList with
    | .SinkInputInfoList x => .ok x
    | .OpError s => .error s
    | ev => .error ("Expected PAResponse::SinkInputInfoList(x) but received "
        ++ debugFmtResponse ev))

/-- `PulseAudio::get_source_output_info_list`: sends
`GetSourceOutputInfoList` and expects `SourceOutputInfoList`. -/
def get_source_output_info_list (resp : PACommand → PAResponse) :
    List PACommand × Except String (List PASourceOutputInfo) :=
  ([PACommand.GetSourceOutputInfoList],
    match resp PACommand.GetSourceOutputInfoList with
    | .SourceOutputInfoList x => .ok x
    | .OpError s => .error s
    | ev => .error ("Expected PAResponse::SourceOutputInfoList(x) but received "
        ++ debugFmtResponse ev))

/-- `impl_find!(SinkInputInfo)` (`find_sink_input_info_by_name`): list the
sink inputs, then return the first entry whose name equals the given name,
or a "No sink_input_info found with name: .." error. -/
def find_sink_input_info_by_name (resp : PACommand → PAResponse)
    (name : String) : List PACommand × Except String PASinkInputInfo :=
  let r := get_sink_input_info_list resp
  (r.1,
    match r.2 with
    | .error e => .error e
    | .ok items =>
        match items.find? (fun x => x.name == some name) with
        | some x => .ok x
        | none => .error ("No sink_input_info found with name: " ++ name))

/-- `impl_find!(SourceOutputInfo)` (`find_source_output_info_by_name`). -/
def find_source_output_info_by_name (resp : PACommand → PAResponse)
    (name : String) : List PACommand × Except String PASourceOutputInfo :=
  let r := get_source_output_info_list resp
  (r.1,
    match r.2 with
    | .error e => .error e
    | .ok items =>
        match items.find? (fun x => x.name == some name) with
        | some x => .ok x
        | none => .error ("No source_output_info found with name: " ++ name))

/-- `PulseAudio::set_sink_input_mute` (`simple.rs:406`): an `Index`
identifier sends `SetSinkInputMute(idx, mute)`; a `Name` identifier
resolves the name through the sink-input list and recurses with the
resolved index. -/
def set_sink_input_mute (resp : PACommand → PAResponse) :
    PAIdent → Bool → List PACommand × Except String OperationResult
  | .index idx, mute =>
      ([PACommand.SetSinkInputMute idx mute],
        operation_result (resp (PACommand.SetSinkInputMute idx mute)))
  | .name n, mute =>
      let fr := find_sink_input_info_by_name resp n
      match fr.2 with
      | .ok si =>
          let r := set_sink_input_mute resp (.index si.index) mute
          (fr.1 ++ r.1, r.2)
      | .error e => (fr.1, .error e)
termination_by id _ => identSize id
decreasing_by simp [identSize]

/-- `PulseAudio::get_source_output_mute` (`simple.rs:475`): for an `Index`
identifier the source sends `GetSinkInputMute(idx)` (the sink-input
variant) and expects a `Mute` response; a `Name` identifier resolves
through the source-output list and recurses. -/
def get_source_output_mute (resp : PACommand → PAResponse) :
    PAIdent → List PACommand × Except String Bool
  | .index idx =>
      ([PACommand.GetSinkInputMute idx],
        match resp (PACommand.GetSinkInputMute idx) with
        | .Mute _ x => .ok x
        | .OpError s => .error s
        | ev => .error ("Expected PAResponse::Mute(_, x) but received "
            ++ debugFmtResponse ev))
  | .name n =>
      let fr := find_source_output_info_by_name resp n
      match fr.2 with
      | .ok si =>
          let r := get_source_output_mute resp (.index si.index)
          (fr.1 ++ r.1, r.2)
      | .error e => (fr.1, .error e)
termination_by id => identSize id
decreasing_by simp [identSize]

/-- `PulseAudio::get_source_output_volume` (`simple.rs:488`): for an
`Index` identifier the source sends `GetSinkInputVolume(idx)` (the
sink-input variant) and expects a `Volume` response. -/
def get_source_output_volume (resp : PACommand → PAResponse) :
    PAIdent → List PACommand × Except String VolumeReadings
  | .index idx =>
      ([PACommand.GetSinkInputVolume idx],
        match resp (PACommand.GetSinkInputVolume idx) with
        | .Volume _ x => .ok x
        | .OpError s => .error s
        | ev => .error ("Expected PAResponse::Volume(_, x) but received "
            ++ debugFmtResponse ev))
  | .name n =>
      let fr := find_source_output_info_by_name resp n
      match fr.2 with
      | .ok si =>
          let r := get_source_output_volume resp (.index si.index)
          (fr.1 ++ r.1, r.2)
      | .error e => (fr.1, .error e)
termination_by id => identSize id
decreasing_by simp [identSize]

/-- `PulseAudio::set_source_output_mute` (`simple.rs:501`): for an `Index`
identifier the source sends `SetSinkInputMute(idx, mute)` (the sink-input
variant). -/
def set_source_output_mute (resp : PACommand → PAResponse) :
    PAIdent → Bool → List PACommand × Except String OperationResult
  | .index idx, mute =>
      ([PACommand.SetSinkInputMute idx mute],
        operation_result (resp (PACommand.SetSinkInputMute idx mute)))
  | .name n, mute =>
      let fr := find_source_output_info_by_name resp n
      match fr.2 with
      | .ok si =>
          let r := set_source_output_mute resp (.index si.index) mute
          (fr.1 ++ r.1, r.2)
      | .error e => (fr.1, .error e)
termination_by id _ => identSize id
decreasing_by simp [identSize]

/-- `PulseAudio::set_source_output_volume` (`simple.rs:514`): for an
`Index` identifier the source sends `SetSinkInputVolume(idx, vol)` (the
sink-input variant). -/
def set_source_output_volume (resp : PACommand → PAResponse) :
    PAIdent → VolumeSpec → List PACommand × Except String OperationResult
  | .index idx, vol =>
      ([PACommand.SetSinkInputVolume idx vol],
        operation_result (resp (PACommand.SetSinkInputVolume idx vol)))
  | .name n, vol =>
      let fr := find_source_output_info_by_name resp n
      match fr.2 with
      | .ok si =>
          let r := set_source_output_volume resp (.index si.index) vol
          (fr.1 ++ r.1, r.2)
      | .error e => (fr.1, .error e)
termination_by id _ => identSize id
decreasing_by simp [identSize]

/-- `PulseAudio::kill_source_output` (`simple.rs:544`): for an `Index`
identifier the source sends `KillSinkInput(idx)` (the sink-input
variant). -/
def kill_source_output (resp : PACommand → PAResponse) :
    PAIdent → List PACommand × Except String OperationResult
  | .index idx =>
      ([PACommand.KillSinkInput idx],
        operation_result (resp (PACommand.KillSinkInput idx)))
  | .name n =>
      let fr := find_source_output_info_by_name resp n
      match fr.2 with
      | .ok si =>
          let r := kill_source_output resp (.index si.index)
          (fr.1 ++ r.1, r.2)
      | .error e => (fr.1, .error e)
termination_by id => identSize id
decreasing_by simp [identSize]

end PulseAudio

/-!
Worker loop (`mainloop.rs`).  `start_loop` receives commands from the
request channel; the connection state observed at each `get_state()` call
is supplied alongside the command (the environment decides it), and the
responses emitted by a dispatched command's callbacks are supplied by a
dispatch function `dr` (they never include `Disconnected`, which only the
thread wrapper sends).  The model records the loop's externally visible
actions so that the pause/resume bracket can be stated.
-/

/-- Connection state (`libpulse`'s `context::State`). -/
inductive PAState where
  | unconnected
  | connecting
  | authorizing
  | settingName
  | ready
  | failed
  | terminated
deriving DecidableEq, Repr

/-- Why the loop stopped (`StopReason` in `mainloop.rs`). -/
inductive StopReason where
  | commandSenderDropped
  | explicitDisconnect
deriving DecidableEq, Repr

/-- `start_loop`'s `Result<StopReason, Box<dyn Error>>`. -/
inductive StopOutcome where
  | stopped (r : StopReason)
  | errored (msg : String)
deriving DecidableEq, Repr

/-- Externally visible actions of the worker: locking (pausing) and
unlocking (resuming) the mainloop, stopping it, and dispatching one
command's primitive calls. -/
inductive LoopAction where
  | lock
  | unlock
  | stop
  | dispatch (c : PACommand)
deriving DecidableEq, Repr

/-- `PulseAudioLoop::start_loop` (`mainloop.rs:256`).  Input: the sequence
of (command, connection state observed after locking) pairs delivered by
the request channel; an exhausted list models the channel's senders having
been dropped.  Output: the action trace, the responses sent (dispatched
commands' responses via `dr`, in order), and the loop's result.  Per
iteration: lock the mainloop, check the state (not `Ready` ⟹ unlock and
fail the session), then either handle `Disconnect` (unlock, stop, return)
or dispatch the command and unlock. -/
def start_loop (dr : PACommand → List PAResponse) :
    List (PACommand × PAState) →
    List LoopAction × List PAResponse × StopOutcome
  | [] => ([.stop], [], .stopped .commandSenderDropped)
  | (cmd, st) :: rest =>
      if st = .ready then
        if cmd = .Disconnect then
          ([.lock, .unlock, .stop], [], .stopped .explicitDisconnect)
        else
          let r := start_loop dr rest
          (.lock :: .dispatch cmd :: .unlock :: r.1, dr cmd ++ r.2.1, r.2.2)
      else
        ([.lock, .unlock], [],
          .errored "Disconnected while working, shutting down")

/-- The worker thread closure in `PulseAudioLoop::start` (`mainloop.rs:160`):
run the loop; on a clean stop send exactly one `Disconnected`; on a loop
error `panic!` (so nothing further is sent).  Result: the responses that
crossed the channel, plus the panic message if the thread panicked. -/
def worker_thread (dr : PACommand → List PAResponse)
    (input : List (PACommand × PAState)) :
    List PAResponse × Option String :=
  let r := start_loop dr input
  match r.2.2 with
  | .stopped _ => (r.2.1 ++ [PAResponse.Disconnected], none)
  | .errored e =>
      (r.2.1,
        some ("An error occurred while interfacing with pulseaudio: " ++ e))

/-- Bracket discipline over an action trace: `lock` only when unlocked,
`unlock` and `dispatch` only when locked (depth exactly one — the single
serialization point), `stop` only when unlocked. -/
def bracketCheck : Nat → List LoopAction → Bool
  | _, [] => true
  | d, a :: rest =>
      match a with
      | .lock => d == 0 && bracketCheck 1 rest
      | .unlock => d == 1 && bracketCheck 0 rest
      | .dispatch _ => d == 1 && bracketCheck d rest
      | .stop => d == 0 && bracketCheck d rest

/-- A trace is well bracketed when it satisfies the bracket discipline
starting unlocked. -/
def wellBracketed (tr : List LoopAction) : Bool := bracketCheck 0 tr

/-!
Facade disposal (`impl Drop for PulseAudio`, `simple.rs:570`): send
`Disconnect` (an `unwrap`, panicking if the channel is closed), then
`recv_timeout` with a 3-second bound; only `Ok(Disconnected)` returns
cleanly — every other outcome is a panic (`unreachable!` / `todo!`).
-/

/-- Outcome of `recv_timeout` on the response channel. -/
inductive RecvOutcome where
  | received (r : PAResponse)
  | timeout
  | senderDropped
deriving DecidableEq, Repr

/-- Result of running `Drop`, one constructor per source arm. -/
inductive DropOutcome where
  | ok
  | panicSendFailed
  | panicUnexpected (ev : PAResponse)
  | panicSenderDropped
  | panicTimeout
deriving DecidableEq, Repr

/-- True for every panicking arm of `Drop`. -/
def DropOutcome.isPanic : DropOutcome → Bool
  | .ok => false
  | _ => true

/-- The command `Drop` sends before waiting. -/
def dropSentCommand : PACommand := PACommand.Disconnect

/-- The `recv_timeout` bound in `Drop`, in seconds. -/
def dropTimeoutSecs : Nat := 3

/-- `impl Drop for PulseAudio`: `sendOk` tells whether
`tx.send(Disconnect)` succeeded (its failure is an `unwrap` panic), and
`out` is what `recv_timeout(3s)` produced. -/
def pulseaudio_drop (sendOk : Bool) (out : RecvOutcome) : DropOutcome :=
  if !sendOk then .panicSendFailed
  else
    match out with
    | .received .Disconnected => .ok
    | .received ev => .panicUnexpected ev
    | .senderDropped => .panicSenderDropped
    | .timeout => .panicTimeout

/-!
Subscription forwarder (`PulseAudioLoop::setup_subscribe`,
`mainloop.rs:543`).  The installed callback receives the server's
`(facility, operation, index)` notification (the first two wrapped in
`Option` and `unwrap`ped), builds the corresponding event with an
`Index` identifier, and pushes it to the caller-supplied sink; when the
push fails (the sink's receiving end was dropped) it clears the
server-side subscribe callback instead of panicking.
-/

/-- Subscription change kind (`libpulse`'s `Operation`). -/
inductive SubscribeOp where
  | new
  | removed
  | changed
deriving DecidableEq, Repr

/-- Object category of a notification (`PAFacility`, wrapping `libpulse`'s
`Facility`). -/
inductive PAFacility where
  | sink
  | source
  | sinkInput
  | sourceOutput
  | module
  | client
  | sampleCache
  | server
  | card
deriving DecidableEq, Repr

/-- Subscription event (`PAEvent` in `api/command.rs`). -/
inductive PAEvent where
  | SubscriptionNew (kind : PAFacility) (id : PAIdent)
  | SubscriptionRemoved (kind : PAFacility) (id : PAIdent)
  | SubscriptionChanged (kind : PAFacility) (id : PAIdent)
deriving DecidableEq, Repr

/-- Identifier carried by an event. -/
def eventIdent : PAEvent → PAIdent
  | .SubscriptionNew _ id => id
  | .SubscriptionRemoved _ id => id
  | .SubscriptionChanged _ id => id

/-- Server-side callback registration state: whether the subscribe
callback installed by `setup_subscribe` is still registered. -/
structure SubscribeState where
  callbackInstalled : Bool
deriving DecidableEq, Repr

/-- The closure passed to `set_subscribe_callback` (`mainloop.rs:549`).
`sinkOpen` says whether the caller-supplied sink can still receive (its
`send` succeeds); a successful push delivers the event, a failed push
clears the callback registration and delivers nothing.  The `unwrap`s on
the `Option` arguments panic when `None` (per the libpulse documentation
they never are). -/
def subscribe_callback (sinkOpen : Bool) (st : SubscribeState)
    (facility : Option PAFacility) (operation : Option SubscribeOp)
    (index : Nat) : PanicOr (SubscribeState × Option PAEvent) :=
  match operation, facility with
  | some op, some kind =>
      let id := PAIdent.index index
      let ev := match op with
        | .new => PAEvent.SubscriptionNew kind id
        | .removed => PAEvent.SubscriptionRemoved kind id
        | .changed => PAEvent.SubscriptionChanged kind id
      if sinkOpen then .ok (st, some ev)
      else .ok ({ st with callbackInstalled := false }, none)
  | _, _ => .panicked "called Option::unwrap on a None value"

/-- Repeated invocation of the forwarder: the server delivers the
notifications in order (all with `Some` facility/operation, per the
libpulse guarantee) starting at time `t`; `sinkOpen i` says whether the
sink is still receivable at time `i`.  A notification reaches the callback
only while the callback is installed; the result is the list of delivered
events. -/
def run_subscribe (sinkOpen : Nat → Bool) :
    Nat → Bool → List (PAFacility × SubscribeOp × Nat) → List PAEvent
  | _, _, [] => []
  | t, installed, n :: rest =>
      if installed then
        match subscribe_callback (sinkOpen t) ⟨installed⟩
            (some n.1) (some n.2.1) n.2.2 with
        | .panicked _ => []
        | .ok (st, ev?) =>
            ev?.toList ++ run_subscribe sinkOpen (t + 1) st.callbackInstalled rest
      else run_subscribe sinkOpen (t + 1) false rest

/-!
Concrete instances used by closed statements: a trivial assignment for the
external libpulse conversions, and simple responders / dispatchers.
-/

/-- A concrete choice of external conversions (any instance works for the
properties below; the verified logic never inspects these functions). -/
def lpZero : LibPulse := ⟨fun _ => 0, fun _ => 0⟩

/-- A responder that acknowledges every command. -/
def respOk : PACommand → PAResponse := fun _ => PAResponse.OpComplete

/-- A dispatcher answering every command with one `OpComplete`. -/
def drOk : PACommand → List PAResponse := fun _ => [PAResponse.OpComplete]

/-- C2: `updated_channel_volumes` with `All(v)` yields `current.length`
copies of `toRaw(v)` regardless of the original per-channel values, and
with `Channels(list)` of matching length yields `list.map(toRaw)` in
order. -/
theorem c2_updated_channel_volumes (lp : LibPulse) (current : ChannelVolumes)
    (v : PAVol) (list : List PAVol) (h : list.length = current.length) :
    updated_channel_volumes lp current (.all v)
      = .ok (List.replicate current.length (v.toVolume lp)) ∧
    updated_channel_volumes lp current (.channels list)
      = .ok (list.map (fun x => x.toVolume lp)) := by
  refine ⟨rfl, ?_⟩
  simp [updated_channel_volumes, new_channel_volumes, h]

/-- C2 witness: two 65536-valued channels with `All(Percentage(50))`
become two copies of `toRaw(Percentage(50)) = 32768`, and a matching
two-element `Channels` spec is mapped in order. -/
theorem c2_witness :
    updated_channel_volumes lpZero [65536, 65536]
        (.all (.percentage 50)) = .ok [32768, 32768] ∧
    updated_channel_volumes lpZero [65536, 65536]
        (.channels [.value 11, .value 22]) = .ok [11, 22] := by
  have h := c2_updated_channel_volumes lpZero [65536, 65536]
    (.percentage 50) [.value 11, .value 22] (by decide)
  refine ⟨h.1.trans ?_, h.2.trans (by decide)⟩
  have hv : (PAVol.percentage 50).toVolume lpZero = 32768 := by
    norm_num [PAVol.toVolume, f64AsU32, volumeNormal]
    rfl
  rw [hv]
  rfl

/-- C3 counterexample: a 3-element `Channels` spec against a 2-channel
target makes `updated_channel_volumes` panic (the `assert!`), i.e. the
operation aborts instead of returning a recoverable error to the
caller. -/
theorem c3_counterexample :
    (updated_channel_volumes lpZero [65536, 65536]
        (.channels [.value 1, .value 2, .value 3])).isPanicked = true ∧
    updated_channel_volumes lpZero [65536, 65536]
        (.channels [.value 1, .value 2, .value 3])
      = .panicked
          "Failed to set volumes. Provided channel count: 3, actual count: 2" := by
  decide

/-- C3 (amended): a `Channels` spec whose length differs from the target's
channel count fails the `assert!` validation with a message naming both
counts and aborts the process (panics); it does not silently truncate or
pad (no normal result is produced), and it does not return a recoverable
error to the caller. -/
theorem c3_amended (lp : LibPulse) (current : ChannelVolumes)
    (vols : List PAVol) (h : vols.length ≠ current.length) :
    updated_channel_volumes lp current (.channels vols)
      = .panicked ("Failed to set volumes. Provided channel count: "
          ++ toString vols.length ++ ", actual count: "
          ++ toString current.length) ∧
    ∀ out, updated_channel_volumes lp current (.channels vols) ≠ .ok out := by
  refine ⟨?_, ?_⟩
  · simp [updated_channel_volumes, h]
  · intro out
    simp [updated_channel_volumes, h]

/-- C3 amended witness at the counterexample's input. -/
theorem c3_amended_witness :
    updated_channel_volumes lpZero [65536, 65536]
        (.channels [.value 1, .value 2, .value 3])
      = .panicked
          "Failed to set volumes. Provided channel count: 3, actual count: 2" := by
  have h := c3_amended lpZero [65536, 65536]
    [.value 1, .value 2, .value 3] (by decide)
  exact h.1.trans (by decide)

/-- C8 counterexample: when the `Disconnected` acknowledgment does not
arrive within the timeout, `Drop` panics (`todo!`) instead of surfacing a
disposal-time error. -/
theorem c8_counterexample :
    pulseaudio_drop true .timeout = .panicTimeout ∧
    (pulseaudio_drop true .timeout).isPanic = true := by
  decide

/-- C8 (amended): on disposal the facade sends `Disconnect` and waits,
bounded by a 3-second timeout, for the `Disconnected` acknowledgment;
receiving `Disconnected` completes cleanly, while a timeout, any other
message, a closed response channel, or a failed send each cause a panic
(`unwrap` / `unreachable!` / `todo!`) rather than a recoverable
disposal-time error. -/
theorem c8_amended (ev : PAResponse) (out : RecvOutcome)
    (hev : ev ≠ .Disconnected) :
    dropSentCommand = .Disconnect ∧
    dropTimeoutSecs = 3 ∧
    pulseaudio_drop true (.received .Disconnected) = .ok ∧
    pulseaudio_drop true (.received ev) = .panicUnexpected ev ∧
    pulseaudio_drop true .timeout = .panicTimeout ∧
    pulseaudio_drop true .senderDropped = .panicSenderDropped ∧
    pulseaudio_drop false out = .panicSendFailed ∧
    (pulseaudio_drop true (.received ev)).isPanic = true := by
  refine ⟨rfl, rfl, rfl, ?_, rfl, rfl, by cases out <;> rfl, ?_⟩ <;>
    cases ev <;> first | rfl | exact absurd rfl hev

/-- C8 amended witness at a concrete unexpected response and outcome. -/
theorem c8_amended_witness :
    pulseaudio_drop true (.received .OpComplete)
      = .panicUnexpected .OpComplete ∧
    pulseaudio_drop true .timeout = .panicTimeout := by
  have h := c8_amended PAResponse.OpComplete RecvOutcome.timeout (by decide)
  exact ⟨h.2.2.2.1, h.2.2.2.2.1⟩

/-- C1: the five source-output facade operations called with an `Index`
identifier send sink-input command variants (`GetSinkInputMute`,
`GetSinkInputVolume`, `SetSinkInputMute`, `SetSinkInputVolume`,
`KillSinkInput`) over the request channel, which differ from the
source-output variants the matching-command contract requires. -/
theorem c1_source_output_commands :
    (PulseAudio.get_source_output_mute respOk (.index 5)).1
      = [PACommand.GetSinkInputMute 5] ∧
    (PulseAudio.get_source_output_volume respOk (.index 5)).1
      = [PACommand.GetSinkInputVolume 5] ∧
    (PulseAudio.set_source_output_mute respOk (.index 5) true).1
      = [PACommand.SetSinkInputMute 5 true] ∧
    (PulseAudio.set_source_output_volume respOk (.index 5)
        (.all (.value 7))).1
      = [PACommand.SetSinkInputVolume 5 (.all (.value 7))] ∧
    (PulseAudio.kill_source_output respOk (.index 5)).1
      = [PACommand.KillSinkInput 5] ∧
    PACommand.GetSinkInputMute 5 ≠ PACommand.GetSourceOutputMute 5 ∧
    PACommand.GetSinkInputVolume 5 ≠ PACommand.GetSourceOutputVolume 5 ∧
    PACommand.SetSinkInputMute 5 true ≠ PACommand.SetSourceOutputMute 5 true ∧
    PACommand.SetSinkInputVolume 5 (.all (.value 7))
      ≠ PACommand.SetSourceOutputVolume 5 (.all (.value 7)) ∧
    PACommand.KillSinkInput 5 ≠ PACommand.KillSourceOutput 5 := by
  refine ⟨?_, ?_, ?_, ?_, ?_, by decide, by decide, by decide, by decide,
    by decide⟩ <;>
    simp [PulseAudio.get_source_output_mute, PulseAudio.get_source_output_volume,
      PulseAudio.set_source_output_mute, PulseAudio.set_source_output_volume,
      PulseAudio.kill_source_output]

/-- Closed form of the loop on a run of ready, non-`Disconnect` commands
followed by `Disconnect`: each command contributes one
lock/dispatch/unlock bracket and its dispatch responses, the `Disconnect`
ends the loop, and everything after the `Disconnect` is ignored. -/
theorem start_loop_ready_prefix (dr : PACommand → List PAResponse)
    (pre post : List (PACommand × PAState))
    (h1 : ∀ p ∈ pre, p.2 = PAState.ready ∧ p.1 ≠ PACommand.Disconnect) :
    start_loop dr (pre ++ (PACommand.Disconnect, PAState.ready) :: post)
      = ((pre.map fun p =>
            [LoopAction.lock, LoopAction.dispatch p.1, LoopAction.unlock]).flatten
          ++ [LoopAction.lock, LoopAction.unlock, LoopAction.stop],
         (pre.map fun p => dr p.1).flatten,
         .stopped .explicitDisconnect) := by
  induction pre with
  | nil => simp [start_loop]
  | cons p rest ih =>
      obtain ⟨hst, hcmd⟩ := h1 p (by simp)
      obtain ⟨c, s⟩ := p
      simp only at hst hcmd
      subst hst
      simp [start_loop, hcmd, ih (fun q hq => h1 q (by simp [hq]))]

/-- Every trace the loop produces obeys the bracket discipline. -/
theorem start_loop_wellBracketed (dr : PACommand → List PAResponse)
    (L : List (PACommand × PAState)) :
    wellBracketed (start_loop dr L).1 = true := by
  induction L with
  | nil => rfl
  | cons p rest ih =>
      obtain ⟨c, s⟩ := p
      by_cases hst : s = PAState.ready
      · by_cases hc : c = PACommand.Disconnect
        · simp [start_loop, hst, hc, wellBracketed, bracketCheck]
        · simpa [start_loop, hst, hc, wellBracketed, bracketCheck] using ih
      · simp [start_loop, hst, wellBracketed, bracketCheck]

/-- C5: whenever the worker receives `Disconnect` (after a run of normally
processed commands), the thread does not fail, the response stream ends
with exactly one `Disconnected`, nothing follows it, and commands queued
after the `Disconnect` contribute nothing. -/
theorem c5_disconnect (dr : PACommand → List PAResponse)
    (pre post : List (PACommand × PAState))
    (h1 : ∀ p ∈ pre, p.2 = PAState.ready ∧ p.1 ≠ PACommand.Disconnect)
    (h2 : ∀ c, PAResponse.Disconnected ∉ dr c) :
    (worker_thread dr
        (pre ++ (PACommand.Disconnect, PAState.ready) :: post)).2 = none ∧
    (worker_thread dr
        (pre ++ (PACommand.Disconnect, PAState.ready) :: post)).1.count
      PAResponse.Disconnected = 1 ∧
    (worker_thread dr
        (pre ++ (PACommand.Disconnect, PAState.ready) :: post)).1.getLast?
      = some PAResponse.Disconnected ∧
    worker_thread dr (pre ++ (PACommand.Disconnect, PAState.ready) :: post)
      = worker_thread dr (pre ++ [(PACommand.Disconnect, PAState.ready)]) := by
  have hpost := start_loop_ready_prefix dr pre post h1
  have hnil := start_loop_ready_prefix dr pre [] h1
  have hmem : PAResponse.Disconnected ∉ (pre.map fun p => dr p.1).flatten := by
    intro hmem
    rcases List.mem_flatten.mp hmem with ⟨l, hl, hin⟩
    rcases List.mem_map.mp hl with ⟨p, _, rfl⟩
    exact h2 p.1 hin
  refine ⟨?_, ?_, ?_, ?_⟩
  · simp [worker_thread, hpost]
  · simp [worker_thread, hpost, List.count_append,
      List.count_eq_zero.mpr hmem]
  · simp [worker_thread, hpost]
  · simp [worker_thread, hpost, hnil]

/-- C5 witness: one ordinary command, then `Disconnect`, then a trailing
command that is never processed. -/
theorem c5_witness :
    (worker_thread drOk
        [(PACommand.GetServerInfo, PAState.ready),
         (PACommand.Disconnect, PAState.ready),
         (PACommand.KillClient 1, PAState.ready)]).2 = none ∧
    (worker_thread drOk
        [(PACommand.GetServerInfo, PAState.ready),
         (PACommand.Disconnect, PAState.ready),
         (PACommand.KillClient 1, PAState.ready)]).1.count
      PAResponse.Disconnected = 1 ∧
    (worker_thread drOk
        [(PACommand.GetServerInfo, PAState.ready),
         (PACommand.Disconnect, PAState.ready),
         (PACommand.KillClient 1, PAState.ready)]).1.getLast?
      = some PAResponse.Disconnected := by
  have h := c5_disconnect drOk [(PACommand.GetServerInfo, PAState.ready)]
    [(PACommand.KillClient 1, PAState.ready)]
    (by intro p hp; simp at hp; simp [hp]) (by intro c h; simp [drOk] at h)
  exact ⟨h.1, h.2.1, h.2.2.1⟩

/-- C7: on each received command the worker locks (pauses) the loop, then
re-verifies the connection state — a non-`Ready` state makes it unlock
(resume) and end the session with a fatal error, without dispatching;
a `Ready` state makes it dispatch inside the lock/unlock bracket
(`Disconnect` instead ends the loop cleanly); and every trace the loop can
produce is well bracketed, so dispatches happen only while the loop is
paused and never nest (at most one command in flight). -/
theorem c7_pause_verify_dispatch_resume (dr : PACommand → List PAResponse)
    (rest : List (PACommand × PAState)) (cmd : PACommand) (st : PAState)
    (L : List (PACommand × PAState)) :
    (st ≠ .ready →
      start_loop dr ((cmd, st) :: rest)
        = ([.lock, .unlock], [],
            .errored "Disconnected while working, shutting down")) ∧
    (st = .ready → cmd ≠ .Disconnect →
      start_loop dr ((cmd, st) :: rest)
        = (.lock :: .dispatch cmd :: .unlock :: (start_loop dr rest).1,
            dr cmd ++ (start_loop dr rest).2.1,
            (start_loop dr rest).2.2)) ∧
    (st = .ready → cmd = .Disconnect →
      start_loop dr ((cmd, st) :: rest)
        = ([.lock, .unlock, .stop], [], .stopped .explicitDisconnect)) ∧
    wellBracketed (start_loop dr L).1 = true := by
  refine ⟨?_, ?_, ?_, start_loop_wellBracketed dr L⟩
  · intro h
    simp [start_loop, h]
  · intro h1 h2
    simp [start_loop, h1, h2]
  · intro h1 h2
    simp [start_loop, h1, h2]

/-- C7 witness: a non-ready state fails the session without dispatching;
a ready state dispatches inside the bracket; the resulting trace is well
bracketed. -/
theorem c7_witness :
    start_loop drOk [(PACommand.GetServerInfo, PAState.failed)]
      = ([.lock, .unlock], [],
          .errored "Disconnected while working, shutting down") ∧
    start_loop drOk [(PACommand.GetServerInfo, PAState.ready)]
      = ([.lock, .dispatch PACommand.GetServerInfo, .unlock, .stop],
          [PAResponse.OpComplete], .stopped .commandSenderDropped) ∧
    wellBracketed
      (start_loop drOk [(PACommand.GetServerInfo, PAState.ready)]).1 = true := by
  have hbad := c7_pause_verify_dispatch_resume drOk [] PACommand.GetServerInfo
    PAState.failed [(PACommand.GetServerInfo, PAState.ready)]
  have hok := c7_pause_verify_dispatch_resume drOk [] PACommand.GetServerInfo
    PAState.ready []
  exact ⟨hbad.1 (by decide), (hok.2.1 rfl (by decide)).trans rfl, hbad.2.2.2⟩

/-- Event constructed by the subscribe callback for a notification. -/
def mkSubscriptionEvent (kind : PAFacility) (op : SubscribeOp)
    (index : Nat) : PAEvent :=
  match op with
  | .new => PAEvent.SubscriptionNew kind (PAIdent.index index)
  | .removed => PAEvent.SubscriptionRemoved kind (PAIdent.index index)
  | .changed => PAEvent.SubscriptionChanged kind (PAIdent.index index)

/-- The callback on a reachable sink delivers exactly the constructed
event and keeps its registration. -/
theorem subscribe_callback_open (st : SubscribeState) (f : PAFacility)
    (op : SubscribeOp) (idx : Nat) :
    subscribe_callback true st (some f) (some op) idx
      = .ok (st, some (mkSubscriptionEvent f op idx)) := by
  cases op <;> rfl

/-- C6: when the push to the caller-supplied sink fails (the sink's
receiving end was dropped), the forwarder returns normally — no panic —
with the server-side subscribe callback cleared and nothing delivered,
and once the callback is cleared (or while the sink stays unreachable) no
further events are ever forwarded. -/
theorem c6_deregister_on_send_failure (st : SubscribeState)
    (f : PAFacility) (op : SubscribeOp) (idx : Nat)
    (sinkOpen : Nat → Bool) (t : Nat)
    (notifs : List (PAFacility × SubscribeOp × Nat))
    (hclosed : ∀ i, sinkOpen i = false) :
    subscribe_callback false st (some f) (some op) idx
      = .ok ({ st with callbackInstalled := false }, none) ∧
    run_subscribe sinkOpen t false notifs = [] ∧
    run_subscribe sinkOpen t true notifs = [] := by
  refine ⟨rfl, ?_, ?_⟩
  · induction notifs generalizing t with
    | nil => rfl
    | cons n rest ih => simpa [run_subscribe] using ih (t + 1)
  · induction notifs generalizing t with
    | nil => rfl
    | cons n rest ih =>
        have hrest : run_subscribe sinkOpen (t + 1) false rest = [] := by
          clear ih
          induction rest generalizing t with
          | nil => rfl
          | cons m ms ihm => simpa [run_subscribe] using ihm (t + 1)
        simp [run_subscribe, hclosed t, subscribe_callback, hrest]

/-- C6 witness: a permanently unreachable sink — the first notification
deregisters the callback, no event is delivered, and later notifications
are ignored. -/
theorem c6_witness :
    subscribe_callback false ⟨true⟩ (some .sink) (some .new) 7
      = .ok (⟨false⟩, none) ∧
    run_subscribe (fun _ => false) 0 true
      [(.sink, .new, 7), (.card, .changed, 3)] = [] := by
  have h := c6_deregister_on_send_failure ⟨true⟩ .sink .new 7
    (fun _ => false) 0 [(.sink, .new, 7), (.card, .changed, 3)]
    (fun _ => rfl)
  exact ⟨h.1, h.2.2⟩

/-- C10: every event the forwarder delivers is built from some received
notification's facility, operation and numeric index, its identifier is
of the `Index` form, and it never carries a `Name` identifier. -/
theorem c10_events_carry_index (sinkOpen : Nat → Bool) (t : Nat)
    (installed : Bool) (notifs : List (PAFacility × SubscribeOp × Nat)) :
    ∀ ev ∈ run_subscribe sinkOpen t installed notifs,
      (∃ p ∈ notifs, ev = mkSubscriptionEvent p.1 p.2.1 p.2.2) ∧
      (∃ i, eventIdent ev = PAIdent.index i) ∧
      ∀ s, eventIdent ev ≠ PAIdent.name s := by
  induction notifs generalizing t installed with
  | nil => intro ev hev; simp [run_subscribe] at hev
  | cons n rest ih =>
      intro ev hev
      cases installed with
      | false =>
          rcases ih (t + 1) false ev (by simpa [run_subscribe] using hev)
            with ⟨⟨p, hp, hevp⟩, hidx, hname⟩
          exact ⟨⟨p, by simp [hp], hevp⟩, hidx, hname⟩
      | true =>
          obtain ⟨f, op, idx⟩ := n
          by_cases hs : sinkOpen t = true
          · rw [run_subscribe] at hev
            simp only [if_pos rfl, hs, subscribe_callback_open] at hev
            rcases List.mem_cons.mp (by simpa using hev) with hev1 | hev2
            · subst hev1
              refine ⟨⟨(f, op, idx), by simp, rfl⟩, ⟨idx, ?_⟩, ?_⟩
              · cases op <;> rfl
              · intro s
                cases op <;> simp [mkSubscriptionEvent, eventIdent]
            · rcases ih (t + 1) true ev hev2
                with ⟨⟨p, hp, hevp⟩, hidx, hname⟩
              exact ⟨⟨p, by simp [hp], hevp⟩, hidx, hname⟩
          · have hs' : sinkOpen t = false := by
              cases hsv : sinkOpen t
              · rfl
              · exact absurd hsv hs
            rw [run_subscribe] at hev
            simp only [if_pos rfl, hs', subscribe_callback] at hev
            rcases ih (t + 1) false ev (by simpa using hev)
              with ⟨⟨p, hp, hevp⟩, hidx, hname⟩
            exact ⟨⟨p, by simp [hp], hevp⟩, hidx, hname⟩

/-- C10 witness: a delivered event from a concrete notification carries
the `Index(7)` identifier. -/
theorem c10_witness :
    (∃ p ∈ [((PAFacility.sink : PAFacility), (SubscribeOp.new : SubscribeOp),
        (7 : Nat))],
      PAEvent.SubscriptionNew .sink (PAIdent.index 7)
        = mkSubscriptionEvent p.1 p.2.1 p.2.2) ∧
    (∃ i, eventIdent (PAEvent.SubscriptionNew .sink (PAIdent.index 7))
        = PAIdent.index i) ∧
    ∀ s, eventIdent (PAEvent.SubscriptionNew .sink (PAIdent.index 7))
        ≠ PAIdent.name s := by
  exact c10_events_carry_index (fun _ => true) 0 true
    [(.sink, .new, 7)] (PAEvent.SubscriptionNew .sink (PAIdent.index 7))
    (by simp [run_subscribe, subscribe_callback])

/-- When filtering leaves exactly one element, that element is the first
match. -/
theorem find?_of_filter_eq_singleton {α : Type} (p : α → Bool) (l : List α)
    (a : α) (h : l.filter p = [a]) : l.find? p = some a := by
  induction l with
  | nil => simp at h
  | cons x xs ih =>
      by_cases hx : p x
      · simp only [List.filter_cons, if_pos hx, List.cons.injEq] at h
        rw [List.find?_cons_of_pos _ hx, h.1]
      · simp only [List.filter_cons, if_neg hx] at h
        rw [List.find?_cons_of_neg _ hx]
        exact ih h

/-- C9: a by-name `set_sink_input_mute` lists the sink inputs, resolves the
name against the listed entries, and recurses with the resolved entry's
index — when exactly one entry bears the name, the commands sent are the
list query followed by the index-addressed mutation (whatever index the
server assigned), and a completed mutation yields success; when no entry
bears the name, the result is the descriptive error naming the category
and the missing name. -/
theorem c9_by_name_resolution (resp : PACommand → PAResponse)
    (items : List PASinkInputInfo) (n : String) (mute : Bool)
    (si : PASinkInputInfo)
    (hresp : resp PACommand.GetSinkInputInfoList
      = PAResponse.SinkInputInfoList items) :
    (items.filter (fun x => x.name == some n) = [si] →
      PulseAudio.set_sink_input_mute resp (.name n) mute
        = ([PACommand.GetSinkInputInfoList,
            PACommand.SetSinkInputMute si.index mute],
           operation_result
             (resp (PACommand.SetSinkInputMute si.index mute))) ∧
      (resp (PACommand.SetSinkInputMute si.index mute)
          = PAResponse.OpComplete →
        (PulseAudio.set_sink_input_mute resp (.name n) mute).2
          = .ok OperationResult.Success)) ∧
    ((∀ x ∈ items, ¬ x.name = some n) →
      PulseAudio.set_sink_input_mute resp (.name n) mute
        = ([PACommand.GetSinkInputInfoList],
           .error ("No sink_input_info found with name: " ++ n))) := by
  constructor
  · intro hfilter
    have hfind : items.find? (fun x => x.name == some n) = some si :=
      find?_of_filter_eq_singleton _ _ _ hfilter
    have hmain : PulseAudio.set_sink_input_mute resp (.name n) mute
        = ([PACommand.GetSinkInputInfoList,
            PACommand.SetSinkInputMute si.index mute],
           operation_result
             (resp (PACommand.SetSinkInputMute si.index mute))) := by
      simp [PulseAudio.set_sink_input_mute,
        PulseAudio.find_sink_input_info_by_name,
        PulseAudio.get_sink_input_info_list, hresp, hfind]
    refine ⟨hmain, fun hcomplete => ?_⟩
    rw [hmain]
    simp [operation_result, hcomplete]
  · intro hnone
    have hfind : items.find? (fun x => x.name == some n) = none := by
      apply List.find?_eq_none.mpr
      intro x hx
      simpa using hnone x hx
    simp [PulseAudio.set_sink_input_mute,
      PulseAudio.find_sink_input_info_by_name,
      PulseAudio.get_sink_input_info_list, hresp, hfind]

/-- A concrete server for the C9 witness: one sink input named
`Spotify` at index 42; every mutation completes. -/
def respC9 : PACommand → PAResponse := fun c =>
  match c with
  | .GetSinkInputInfoList =>
      .SinkInputInfoList [{ index := 42, name := some "Spotify" }]
  | _ => .OpComplete

/-- C9 witness: muting by the existing name succeeds (through index 42);
muting by an absent name yields the descriptive not-found error. -/
theorem c9_witness :
    (PulseAudio.set_sink_input_mute respC9 (.name "Spotify") true).2
      = .ok OperationResult.Success ∧
    PulseAudio.set_sink_input_mute respC9 (.name "Nope") true
      = ([PACommand.GetSinkInputInfoList],
         .error ("No sink_input_info found with name: " ++ "Nope")) := by
  have hyes := c9_by_name_resolution respC9
    [{ index := 42, name := some "Spotify" }] "Spotify" true
    { index := 42, name := some "Spotify" } rfl
  have hno := c9_by_name_resolution respC9
    [{ index := 42, name := some "Spotify" }] "Nope" true
    { index := 42, name := some "Spotify" } rfl
  exact ⟨(hyes.1 (by decide)).2 rfl, hno.2 (by decide)⟩

/-- A trailing `L` always takes the linear branch: the suffix is popped,
the rest trimmed and parsed as a float. -/
theorem from_str_concat_L (t : List Char) :
    PAVol.from_str (t ++ ['L'])
      = match parseF64 (listTrim t) with
        | some q => .ok (.linear q)
        | none => .error floatErrMsg := by
  have h1 : listEndsWith (t ++ ['L']) ['L'] = true := by
    simp [listEndsWith, List.reverse_append]
  simp only [PAVol.from_str, h1, List.dropLast_concat, if_true]

/-- A trailing `dB` (not `L`) takes the decibel branch: both suffix
characters are popped, the rest trimmed and parsed as a float. -/
theorem from_str_concat_dB (t : List Char) :
    PAVol.from_str (t ++ ['d', 'B'])
      = match parseF64 (listTrim t) with
        | some q => .ok (.decibels q)
        | none => .error floatErrMsg := by
  have ht : t ++ ['d', 'B'] = (t ++ ['d']) ++ ['B'] := by simp
  have h0 : listEndsWith ((t ++ ['d']) ++ ['B']) ['L'] = false := by
    simp [listEndsWith, List.reverse_append]
  have h1 : listEndsWith ((t ++ ['d']) ++ ['B']) ['d', 'B'] = true := by
    simp [listEndsWith, List.reverse_append]
  rw [ht]
  simp only [PAVol.from_str, h0, h1, List.dropLast_concat, if_true,
    Bool.false_eq_true, if_false]

/-- A trailing `%` (neither `L` nor `dB`) takes the percentage branch:
the suffix is popped and the rest trimmed and parsed as a float, with an
integer fallback. -/
theorem from_str_concat_pct (t : List Char) :
    PAVol.from_str (t ++ ['%'])
      = match parseF64 (listTrim t) with
        | some q => .ok (.percentage q)
        | none =>
            match parseU32 (listTrim t) with
            | .ok n => .ok (.percentage (n : Rat))
            | .error e => .error e := by
  have h0 : listEndsWith (t ++ ['%']) ['L'] = false := by
    simp [listEndsWith, List.reverse_append]
  have h1 : listEndsWith (t ++ ['%']) ['d', 'B'] = false := by
    simp [listEndsWith, List.reverse_append]
  have h2 : listEndsWith (t ++ ['%']) ['%'] = true := by
    simp [listEndsWith, List.reverse_append]
  simp only [PAVol.from_str, h0, h1, h2, List.dropLast_concat, if_true,
    Bool.false_eq_true, if_false]

/-- Numeric portion `50` parses to the rational 50. -/
theorem parseF64_50 : parseF64 "50".data = some 50 := by
  have h : parseF64 "50".data
      = some (((50 : Nat) : Rat) / (10 : Rat) ^ (0 : Nat)) := rfl
  rw [h]
  norm_num

/-- Numeric portion `-6.0` parses to the rational -6. -/
theorem parseF64_neg6 : parseF64 "-6.0".data = some (-6) := by
  have h : parseF64 "-6.0".data
      = some (-(((60 : Nat) : Rat) / (10 : Rat) ^ (1 : Nat))) := rfl
  rw [h]
  norm_num

/-- Numeric portion `0.5` parses to the rational 1/2. -/
theorem parseF64_half : parseF64 "0.5".data = some (1 / 2) := by
  have h : parseF64 "0.5".data
      = some (((5 : Nat) : Rat) / (10 : Rat) ^ (1 : Nat)) := rfl
  rw [h]
  norm_num

/-- C4 counterexample: the malformed literal `abcL` fails with the
standard library's parse error `invalid float literal`, whose text does
not name the offending portion `abc`. -/
theorem c4_counterexample :
    PAVol.from_str "abcL".data = .error "invalid float literal" ∧
    containsSub "invalid float literal".data "abc".data = false := by
  exact ⟨rfl, by decide⟩

/-- C4 (amended): the literal parser dispatches on the trailing suffix —
`L` yields a Linear float, `dB` a Decibels float, `%` a Percentage (float,
with an unsigned-integer fallback), and no suffix a raw unsigned integer —
trimming whitespace around the numeric portion; in particular
`parse("50%") = Percentage(50)`, `parse("-6.0dB") = Decibels(-6)`,
`parse("0.5L") = Linear(0.5)`, `parse("32768") = Value(32768)`; and a
malformed numeric portion (including any `-`-signed no-suffix literal,
which the unsigned integer parse rejects as a non-digit) fails with the
standard library's parse error message, which does not include the
offending text. -/
theorem c4_amended (t : List Char) :
    PAVol.from_str "50%".data = .ok (.percentage 50) ∧
    PAVol.from_str "-6.0dB".data = .ok (.decibels (-6)) ∧
    PAVol.from_str "0.5L".data = .ok (.linear (1 / 2)) ∧
    PAVol.from_str "32768".data = .ok (.value 32768) ∧
    (PAVol.from_str (t ++ ['L'])
      = match parseF64 (listTrim t) with
        | some q => .ok (.linear q)
        | none => .error floatErrMsg) ∧
    (PAVol.from_str (t ++ ['d', 'B'])
      = match parseF64 (listTrim t) with
        | some q => .ok (.decibels q)
        | none => .error floatErrMsg) ∧
    (PAVol.from_str (t ++ ['%'])
      = match parseF64 (listTrim t) with
        | some q => .ok (.percentage q)
        | none =>
            match parseU32 (listTrim t) with
            | .ok n => .ok (.percentage (n : Rat))
            | .error e => .error e) ∧
    PAVol.from_str "abcL".data = .error floatErrMsg ∧
    PAVol.from_str "xy".data = .error "invalid digit found in string" ∧
    PAVol.from_str "-0".data = .error "invalid digit found in string" ∧
    PAVol.from_str "-5".data = .error "invalid digit found in string" := by
  refine ⟨?_, ?_, ?_, rfl, from_str_concat_L t, from_str_concat_dB t,
    from_str_concat_pct t, rfl, rfl, rfl, rfl⟩
  · rw [show ("50%".data) = "50".data ++ ['%'] from rfl, from_str_concat_pct,
      show listTrim "50".data = "50".data from rfl, parseF64_50]
  · rw [show ("-6.0dB".data) = "-6.0".data ++ ['d', 'B'] from rfl,
      from_str_concat_dB,
      show listTrim "-6.0".data = "-6.0".data from rfl, parseF64_neg6]
  · rw [show ("0.5L".data) = "0.5".data ++ ['L'] from rfl, from_str_concat_L,
      show listTrim "0.5".data = "0.5".data from rfl, parseF64_half]
